import Mathlib

/-!
Verification of the RCA-Copilot asynchronous query-processing pipeline.

This file is a shallow embedding of the orchestration / queueing core of the
repository: the Redis-backed job queue and result store (`redis_config.py`,
`main.py`, `worker.py`), the orchestrator (`agents/master_agent.py`,
`models/rca_chain.py`), and the local-data fallback search of the specialized
agents (`agents/operator_agent.py`, `agents/maintenance_agent.py`).

External collaborators (the Azure OpenAI completion calls and the Azure Search
retrieval calls) are modelled as oracles supplied through an `Env` value: each
oracle is a function from the query text to `Except String α`, where
`Except.error e` models the Python call raising an exception whose `str` is
`e`, and `Except.ok v` models a normal return.  Machine time is a `Nat`
(seconds); the Redis TTL mechanics are modelled with explicit absolute expiry
deadlines.
-/

namespace RCACopilot

/-! ## Python string helpers

Small total models of the Python string operations the source relies on. -/

/-- `isPrefChars pat l` is true when `pat` is an initial segment of `l`. -/
def isPrefChars : List Char → List Char → Bool
  | [], _ => true
  | _ :: _, [] => false
  | a :: as, b :: bs => a = b && isPrefChars as bs

/-- `hasSubChars pat l` is true when `pat` occurs contiguously inside `l`. -/
def hasSubChars (pat : List Char) : List Char → Bool
  | [] => isPrefChars pat []
  | c :: cs => isPrefChars pat (c :: cs) || hasSubChars pat cs

/-- Models the Python expression `pat in text` (substring containment). -/
def pyInStr (pat text : String) : Bool :=
  hasSubChars pat.data text.data

/-- Models Python `str.upper()` character by character (the source only ever
upper-cases ASCII routing text). -/
def strUpper (s : String) : String := String.mk (s.data.map Char.toUpper)

/-- Models Python `str.lower()` character by character (the source only ever
lower-cases ASCII query and document text). -/
def strLower (s : String) : String := String.mk (s.data.map Char.toLower)

/-- Models Python `str.strip()`: drop whitespace from both ends. -/
def strTrim (s : String) : String :=
  String.mk (((s.data.dropWhile Char.isWhitespace).reverse.dropWhile Char.isWhitespace).reverse)

/-- Scan for non-overlapping occurrences of `pat`, advancing past each match;
`fuel` bounds the recursion and is instantiated with the text length. -/
def countOccsFuel (pat : List Char) : Nat → List Char → Nat
  | _, [] => 0
  | 0, _ => 0
  | fuel+1, c :: cs =>
      if isPrefChars pat (c :: cs) then 1 + countOccsFuel pat fuel ((c :: cs).drop pat.length)
      else countOccsFuel pat fuel cs

/-- Models Python `text.count(pat)` for a nonempty `pat`: the number of
non-overlapping occurrences scanning left to right. -/
def pyCount (text pat : String) : Nat :=
  countOccsFuel pat.data text.data.length text.data

/-- Accumulator pass behind `pySplitWs`: split at whitespace, dropping empty
pieces; `acc` holds the reversed current word. -/
def wordsAux : List Char → List Char → List (List Char)
  | acc, [] => if acc = [] then [] else [acc.reverse]
  | acc, c :: cs =>
      if c.isWhitespace then
        if acc = [] then wordsAux [] cs else acc.reverse :: wordsAux [] cs
      else wordsAux (c :: acc) cs

/-- Models Python `s.split()` with no separator: split on runs of whitespace,
discarding empty pieces. -/
def pySplitWs (s : String) : List String :=
  (wordsAux [] s.data).map String.mk

/-! ## Data model

`ResultRecord` models the JSON object stored under `pa_hackathon:result:<id>`
(written at `main.py:226-237`, `worker.py:140-164` and `worker.py:183-196`);
`QueueMsg` models the JSON message pushed onto `pa_hackathon:rca_queue`
(`main.py:219-240`). -/

/-- The result object stored in Redis: keys `query`, `status`, `rca_report`,
`error`, `timestamp`; `none` models JSON `null`. -/
structure ResultRecord where
  query : String
  status : String
  rca_report : Option String
  error : Option String
  timestamp : Option String
deriving DecidableEq, Repr

/-- The queue message: keys `query_id`, `query`, `timestamp` (`main.py:219-223`). -/
structure QueueMsg where
  query_id : String
  query : String
  timestamp : String
deriving DecidableEq, Repr

/-! ## Redis model: key/value store with expiry, and the FIFO list -/

/-- The result store: each live key maps to a record together with its
absolute expiry deadline (the write time plus the TTL passed to `SETEX`). -/
def Store : Type := String → Option (ResultRecord × Nat)

/-- The store with no live keys. -/
def emptyStore : Store := fun _ => none

/-- Models Redis `SETEX key ttl value` executed at time `now`: the key is
created or overwritten and its expiry countdown is reset to `ttl` seconds. -/
def setex (st : Store) (now : Nat) (key : String) (ttl : Nat) (v : ResultRecord) : Store :=
  fun k => if k = key then some (v, now + ttl) else st k

/-- Models Redis `GET key` at time `t`: a key that never existed and a key
whose TTL elapsed are both reported as `none` (not found). -/
def getKey (st : Store) (t : Nat) (key : String) : Option ResultRecord :=
  match st key with
  | some (v, deadline) => if t < deadline then some v else none
  | none => none

/-- `RESULT_TTL = 3600` (`redis_config.py:36`): results expire after one hour. -/
def RESULT_TTL : Nat := 3600

/-- `RESULT_PREFIX` (`redis_config.py:32`) prepended to the query id. -/
def resultKey (query_id : String) : String :=
  "pa_hackathon:result:" ++ query_id

/-- Models Redis `BLPOP queue timeout` on the job list: on an empty list the
call returns nil after the timeout (not an error, `worker.py:232-234`);
otherwise it atomically removes and returns the head element. -/
def blpopQueue (queue : List QueueMsg) : Option (QueueMsg × List QueueMsg) :=
  match queue with
  | [] => none
  | m :: rest => some (m, rest)

/-- Models Redis `RPUSH queue msg` (`main.py:240`): append at the tail. -/
def rpushQueue (queue : List QueueMsg) (m : QueueMsg) : List QueueMsg :=
  queue ++ [m]

/-! ## Router (`MasterAgent._route_query`, `master_agent.py:100-164`) -/

/-- The routing dictionary built at `master_agent.py:139-143`. -/
structure RoutingDecision where
  sensor_agent : Bool
  operator_agent : Bool
  maintenance_agent : Bool
deriving DecidableEq, Repr

/-- The select-all decision used as the fail-open default
(`master_agent.py:149-153` and `master_agent.py:160-164`). -/
def allAgentsDecision : RoutingDecision :=
  { sensor_agent := true, operator_agent := true, maintenance_agent := true }

/-- The all-negative decision (no selector chosen). -/
def noAgentsDecision : RoutingDecision :=
  { sensor_agent := false, operator_agent := false, maintenance_agent := false }

/-- `any(routing.values())` at `master_agent.py:146`. -/
def RoutingDecision.selectsAny (r : RoutingDecision) : Bool :=
  r.sensor_agent || r.operator_agent || r.maintenance_agent

/-- The parse of the classification text at `master_agent.py:139-143`:
each selector is an independent substring check against the upper-cased text. -/
def parseRouting (routing_text : String) : RoutingDecision :=
  { sensor_agent := pyInStr "SENSOR_AGENT: YES" (strUpper routing_text),
    operator_agent := pyInStr "OPERATOR_AGENT: YES" (strUpper routing_text),
    maintenance_agent := pyInStr "MAINTENANCE_AGENT: YES" (strUpper routing_text) }

/-- Models `MasterAgent._route_query` (`master_agent.py:100-164`).  `classify`
is the oracle for the routing LLM call (`self.llm.invoke` at line 135) on the
prompt built from `query`; its text result is stripped (line 136) and parsed.
If no selector is positive, or if the call raises, the decision defaults to
all three agents. -/
def routeQuery (classify : String → Except String String) (query : String) : RoutingDecision :=
  match classify query with
  | Except.ok content =>
      let routing := parseRouting (strTrim content)
      if routing.selectsAny then routing else allAgentsDecision
  | Except.error _ => allAgentsDecision

/-! ## Specialized agents (`agents/*_agent.py`), orchestrator, worker -/

/-- A free-form JSON-like payload: the `data` dict built in the `try` body of a
specialized agent (`operator_agent.py:80-84`, `maintenance_agent.py:80-84`,
`sensor_agent.py:77-85`).  Its content is never inspected by the orchestration
control flow: `MasterAgent._generate_rca_report` extracts fields from it with
defaulting `get` calls (which cannot raise) and then raises before the
extracted values reach any output (see `generateRcaReportStep`). -/
structure Payload where
  fields : List (String × String)
deriving DecidableEq, Repr

/-- The dictionary produced by `AgentResponse.to_dict` (`base_agent.py:204-212`).
The informational `metadata` entry (document counts) is read by the caller only
for log lines (`master_agent.py:202`, `master_agent.py:214`) and is omitted. -/
structure AgentResp where
  agent_name : String
  success : Bool
  data : Option Payload
  error : Option String
deriving DecidableEq, Repr

/-- The oracles for the external calls made while processing one query, plus
the wall-clock timestamp `MasterAgent._get_timestamp` returns.  Each specialized
agent oracle models the whole `try` body of the `process_query` of that agent
(retrieval — remote or local — plus response assembly): `Except.ok p` is a
normal return carrying the `data` payload, `Except.error e` is a raised
exception with text `e`. -/
structure Env where
  classify : String → Except String String
  sensorCall : String → Except String Payload
  operatorCall : String → Except String Payload
  maintenanceCall : String → Except String Payload
  synthesize : String → Except String String
  timestamp : String

/-- The shared shape of `SensorDataAgent.process_query` (`sensor_agent.py:37-92`),
`OperatorAgent.process_query` (`operator_agent.py:56-96`) and
`MaintenanceAgent.process_query` (`maintenance_agent.py:56-96`): run the `try`
body; any exception is caught at the agent boundary and converted into an
`AgentResponse` with `success=False` and the exception text as `error`. -/
def agentProcessQuery (name : String) (call : Except String Payload) : AgentResp :=
  match call with
  | Except.ok p => { agent_name := name, success := true, data := some p, error := none }
  | Except.error e => { agent_name := name, success := false, data := none, error := some e }

/-- The `responses` dictionary built by `MasterAgent._invoke_agents`
(`master_agent.py:166-220`): one optional entry per domain; an agent whose
selector is false is never invoked and contributes no entry. -/
structure AgentResponses where
  sensor_data : Option AgentResp
  operator_reports : Option AgentResp
  maintenance_logs : Option AgentResp
deriving DecidableEq, Repr

/-- Models `MasterAgent._invoke_agents` (`master_agent.py:166-220`).  Each
selected agent is invoked inside its own `try`; since each agent already
catches internally (see `agentProcessQuery`), the outer handler at
`master_agent.py:192-194` (and its two siblings) is not reachable in this
model.  The failure of a single agent never aborts the other invocations. -/
def invokeAgents (env : Env) (routing : RoutingDecision) (query : String) : AgentResponses :=
  { sensor_data :=
      if routing.sensor_agent then
        some (agentProcessQuery "Sensor Data Agent" (env.sensorCall query))
      else none,
    operator_reports :=
      if routing.operator_agent then
        some (agentProcessQuery "Operator Agent" (env.operatorCall query))
      else none,
    maintenance_logs :=
      if routing.maintenance_agent then
        some (agentProcessQuery "Maintenance Agent" (env.maintenanceCall query))
      else none }

/-- The result dictionary of `RCAChain.generate_rca_report`
(`rca_chain.py:64-119`) as invoked with its declared parameters: format the
inputs, invoke the synthesis LLM, and catch any exception into a
`success=False` dictionary.  Kept for reference; it is not reachable from
`MasterAgent` (see `generateRcaReportStep`). -/
def rcaChainGenerateReport (env : Env) (query : String) : AgentResp :=
  match env.synthesize query with
  | Except.ok text => { agent_name := "rca_chain", success := true,
                        data := some { fields := [("rca_report", text)] }, error := none }
  | Except.error e => { agent_name := "rca_chain", success := false,
                        data := none, error := some e }

/-- The Python `TypeError` text raised at the call `master_agent.py:269`. -/
def rcaKwargsTypeErrorMsg : String :=
  "RCAChain.generate_rca_report got an unexpected keyword argument sensor_analysis"

/-- Models `MasterAgent._generate_rca_report` (`master_agent.py:222-282`), the
AGGREGATING step.  The field extraction at lines 240-266 uses defaulting `get`
calls and `len` and cannot raise.  The call at line 269 then passes the keyword
arguments `sensor_analysis`, `operator_analysis`, `maintenance_analysis`,
`sensor_documents`, `operator_documents`, `maintenance_documents`, but
`RCAChain.generate_rca_report` (`rca_chain.py:64-71`) declares only `query`,
`sensor_data`, `operator_reports`, `maintenance_logs`, `context` and has no
catch-all keyword parameter, so CPython raises `TypeError` at the call site,
before the callee body (and its internal `try`) is entered.  The step
therefore always raises, whatever the oracles do. -/
def generateRcaReportStep (_env : Env) (_query : String) (_resps : AgentResponses) :
    Except String String :=
  Except.error rcaKwargsTypeErrorMsg

/-- The dictionary returned by `MasterAgent.process_query`
(`master_agent.py:52-98`): on success (line 79-86) it carries the report text
and the routing decision; on any exception (line 91-98) it carries
`success=False` and the exception text. -/
structure MasterResult where
  success : Bool
  routing_decision : Option RoutingDecision
  agent_responses : Option AgentResponses
  rca_report : Option String
  error : Option String
  timestamp : String
deriving DecidableEq, Repr

/-- Models `MasterAgent.process_query` (`master_agent.py:52-98`): route, invoke
the selected agents, generate the report; any exception inside the `try` is
caught at the job boundary into a `success=False` result. -/
def masterProcessQuery (env : Env) (query : String) : MasterResult :=
  let routing := routeQuery env.classify query
  let resps := invokeAgents env routing query
  match generateRcaReportStep env query resps with
  | Except.ok report =>
      { success := true, routing_decision := some routing, agent_responses := some resps,
        rca_report := some report, error := none, timestamp := env.timestamp }
  | Except.error e =>
      { success := false, routing_decision := none, agent_responses := none,
        rca_report := none, error := some e, timestamp := env.timestamp }

/-! ## Worker (`worker.py`) and submission API (`main.py`) -/

/-- Models `RCAWorker._update_query_status` without its exception guard
(`worker.py:206-216`): read the record; if it is missing or expired, do
nothing; otherwise overwrite only its `status` field, with a fresh TTL.
Returns the new store and the list of records written. -/
def updateQueryStatusCore (st : Store) (now : Nat) (query_id status : String) :
    Store × List ResultRecord :=
  match getKey st now (resultKey query_id) with
  | none => (st, [])
  | some data =>
      let d := { data with status := status }
      (setex st now (resultKey query_id) RESULT_TTL d, [d])

/-- Models `RCAWorker._update_query_status` (`worker.py:204-218`): the body is
wrapped in `try`/`except`, so a store failure (modelled by `updateOk = false`)
leaves the store unchanged and is only logged — it never propagates to the
caller. -/
def updateQueryStatus (updateOk : Bool) (st : Store) (now : Nat) (query_id status : String) :
    Store × List ResultRecord :=
  if updateOk then updateQueryStatusCore st now query_id status else (st, [])

/-- The terminal record the worker builds from the master response
(`worker.py:138-156`): `completed` with the report and a null error when the
response says success, otherwise `failed` with a null report and the error
text (defaulted exactly as the `get` calls at lines 139 and 154 default). -/
def workerResultOf (resp : MasterResult) (query : String) : ResultRecord :=
  if resp.success then
    { query := query, status := "completed",
      rca_report := some (resp.rca_report.getD "No report generated"),
      error := none, timestamp := some resp.timestamp }
  else
    { query := query, status := "failed", rca_report := none,
      error := some (resp.error.getD "Unknown error"), timestamp := some resp.timestamp }

/-- Models `RCAWorker.process_query` (`worker.py:109-202`) in the executions in
which the Redis store itself does not fail (so the outer handler at
`worker.py:176-202` is not reached): best-effort `processing` update, master
agent invocation, terminal `SETEX` write with a fresh TTL.  Returns the new
store, the terminal record, and the list of records written in order. -/
def workerProcessQuery (env : Env) (updateOk : Bool) (st : Store) (now : Nat)
    (query_id query : String) : Store × ResultRecord × List ResultRecord :=
  let u := updateQueryStatus updateOk st now query_id "processing"
  let response := masterProcessQuery env query
  let result := workerResultOf response query
  (setex u.1 now (resultKey query_id) RESULT_TTL result, result, u.2 ++ [result])

/-- The initial record written by the submission endpoint (`main.py:226-232`). -/
def initialRecord (query : String) : ResultRecord :=
  { query := query, status := "queued", rca_report := none, error := none, timestamp := none }

/-- Models the `/ask` endpoint body (`main.py:195-256`): write the `queued`
record with a fresh TTL, then push the job message onto the queue tail.
Returns the new store, the new queue, and the list of records written. -/
def askQuery (st : Store) (queue : List QueueMsg) (now : Nat)
    (query_id query ts : String) : Store × List QueueMsg × List ResultRecord :=
  (setex st now (resultKey query_id) RESULT_TTL (initialRecord query),
   rpushQueue queue { query_id := query_id, query := query, timestamp := ts },
   [initialRecord query])

/-- The full write trace for one job: the submission write at time `now0`
followed by the worker writes at time `now1`, on the store the submission
produced. -/
def combinedWrites (env : Env) (updateOk : Bool) (st : Store) (queue : List QueueMsg)
    (now0 now1 : Nat) (query_id query ts : String) : List ResultRecord :=
  let a := askQuery st queue now0 query_id query ts
  let w := workerProcessQuery env updateOk a.1 now1 query_id query
  a.2.2 ++ w.2.2

/-! ## Local-data fallback search
(`OperatorAgent._search_local_data`, `operator_agent.py:131-180`;
`MaintenanceAgent._search_local_data`, `maintenance_agent.py:131-170`) -/

/-- One row of the operator-reports CSV, with the fields the search reads. -/
structure OperatorReport where
  report_id : String
  machine_id : String
  operator_name : String
  shift : String
  date : String
  incident_description : String
  initial_action : String
  severity : String
  status : String
deriving DecidableEq, Repr

/-- One entry of the maintenance-logs JSON, with the fields the search reads. -/
structure MaintenanceLog where
  log_id : String
  machine_id : String
  date : String
  maintenance_type : String
  components_checked : List String
  actions_taken : String
  technician : String
  downtime_hours : Nat
  remarks : String
deriving DecidableEq, Repr

/-- The keyword-match part of both scoring functions
(`operator_agent.py:144-147`, `maintenance_agent.py:150-153`): for each
whitespace-separated keyword of the lower-cased query, if the keyword occurs
in the text, add its occurrence count. -/
def keywordScore (text : String) (keywords : List String) : Nat :=
  keywords.foldl (fun score kw => if pyInStr kw text then score + pyCount text kw else score) 0

/-- `calculate_relevance` (`operator_agent.py:139-155`): keyword score over the
concatenated incident/action/machine text, plus 2 for an open report, plus 3
for high or critical severity. -/
def operatorRelevance (query_lower : String) (r : OperatorReport) : Nat :=
  let text := strLower (r.incident_description ++ " " ++ r.initial_action ++ " " ++ r.machine_id)
  let s := keywordScore text (pySplitWs query_lower)
  let s := if r.status = "Open" then s + 2 else s
  if r.severity = "High" || r.severity = "Critical" then s + 3 else s

/-- The per-log score (`maintenance_agent.py:141-161`): keyword score over the
concatenated machine/type/components/actions/remarks text, plus 2 for
emergency or corrective maintenance, plus 1 for downtime above 5 hours. -/
def maintenanceScore (query_lower : String) (log : MaintenanceLog) : Nat :=
  let text := strLower (log.machine_id ++ " " ++ log.maintenance_type ++ " "
      ++ String.intercalate " " log.components_checked ++ " "
      ++ log.actions_taken ++ " " ++ log.remarks)
  let s := keywordScore text (pySplitWs query_lower)
  let s := if log.maintenance_type = "Emergency" || log.maintenance_type = "Corrective"
           then s + 2 else s
  if log.downtime_hours > 5 then s + 1 else s

/-- Stable descending insertion on score: an element is placed before the
first strictly smaller score, after any equal score already present. -/
def insertScoreDesc {α : Type} (x : α × Nat) : List (α × Nat) → List (α × Nat)
  | [] => [x]
  | y :: ys => if y.2 < x.2 then x :: y :: ys else y :: insertScoreDesc x ys

/-- Stable descending sort on score: models both pandas
`nlargest(top_k, ...)` restricted to its ordering (ties keep first occurrence)
and Python `list.sort(key=score, reverse=True)` (stable). -/
def sortScoreDesc {α : Type} : List (α × Nat) → List (α × Nat)
  | [] => []
  | x :: xs => insertScoreDesc x (sortScoreDesc xs)

/-- Models `OperatorAgent._search_local_data` (`operator_agent.py:131-180`):
empty dataset short-circuits to `[]`; otherwise score every row, take the
`top_k` rows of largest score, and keep only those with a strictly positive
score.  Each returned pair is the result dictionary (row fields plus its
`relevance_score`). -/
def operatorSearchLocal (data : List OperatorReport) (query : String) (top_k : Nat) :
    List (OperatorReport × Nat) :=
  match data with
  | [] => []
  | _ =>
    let query_lower := strLower query
    let scored := data.map (fun r => (r, operatorRelevance query_lower r))
    ((sortScoreDesc scored).take top_k).filter (fun rs => rs.2 > 0)

/-- Models `MaintenanceAgent._search_local_data` (`maintenance_agent.py:131-170`):
empty dataset short-circuits to `[]`; otherwise keep every log with a strictly
positive score (attaching the score), sort by score descending, and take the
first `top_k`. -/
def maintenanceSearchLocal (data : List MaintenanceLog) (query : String) (top_k : Nat) :
    List (MaintenanceLog × Nat) :=
  match data with
  | [] => []
  | _ =>
    let query_lower := strLower query
    let scored := data.filterMap (fun log =>
      let s := maintenanceScore query_lower log
      if s > 0 then some (log, s) else none)
    (sortScoreDesc scored).take top_k

/-! ## Shared lemmas and sample inputs -/

/-- Reading the key just written by `setex` yields the value while the TTL has
not elapsed and not-found afterwards. -/
theorem getKey_setex_same (st : Store) (now : Nat) (key : String) (ttl : Nat)
    (v : ResultRecord) (t : Nat) :
    getKey (setex st now key ttl v) t key = if t < now + ttl then some v else none := by
  simp [getKey, setex]

/-- The terminal record the worker writes for every job: because the
AGGREGATING call site always raises (see `generateRcaReportStep`), every job
terminates `failed` with the `TypeError` text. -/
def jobTerminalRecord (env : Env) (query : String) : ResultRecord :=
  { query := query, status := "failed", rca_report := none,
    error := some rcaKwargsTypeErrorMsg, timestamp := some env.timestamp }

/-- The terminal record returned by the worker is `jobTerminalRecord`, for every
store, update outcome and time. -/
theorem workerProcessQuery_result (env : Env) (ok : Bool) (st : Store) (now : Nat)
    (query_id query : String) :
    (workerProcessQuery env ok st now query_id query).2.1 = jobTerminalRecord env query := rfl

/-- The combined write trace of one submitted-then-processed job, in closed
form: the `queued` record, then the `processing` record exactly when the
update did not fail and the initial record had not expired, then the terminal
record. -/
theorem combinedWrites_eq (env : Env) (ok : Bool) (st : Store) (queue : List QueueMsg)
    (now0 now1 : Nat) (query_id query ts : String) :
    combinedWrites env ok st queue now0 now1 query_id query ts =
      initialRecord query ::
        ((if ok ∧ now1 < now0 + RESULT_TTL
          then [{ initialRecord query with status := "processing" }] else []) ++
         [jobTerminalRecord env query]) := by
  unfold combinedWrites askQuery workerProcessQuery updateQueryStatus updateQueryStatusCore
  by_cases hok : ok
  · by_cases ht : now1 < now0 + RESULT_TTL
    · simp [hok, ht, getKey_setex_same, jobTerminalRecord, workerResultOf,
        masterProcessQuery, generateRcaReportStep]
    · simp [hok, ht, getKey_setex_same, jobTerminalRecord, workerResultOf,
        masterProcessQuery, generateRcaReportStep]
  · simp [hok, jobTerminalRecord, workerResultOf, masterProcessQuery, generateRcaReportStep]

/-- A classification result in which all three agents answer YES. -/
def routingYesText : String :=
  "SENSOR_AGENT: YES\nOPERATOR_AGENT: YES\nMAINTENANCE_AGENT: YES"

/-- An environment in which every external call succeeds: the routing LLM
selects all three agents, all three retrieval calls return a payload, and the
synthesis LLM would return a report. -/
def envAllOk : Env :=
  { classify := fun _ => Except.ok routingYesText,
    sensorCall := fun _ => Except.ok { fields := [("summary", "sensor ok")] },
    operatorCall := fun _ => Except.ok { fields := [("summary", "operator ok")] },
    maintenanceCall := fun _ => Except.ok { fields := [("summary", "maintenance ok")] },
    synthesize := fun _ => Except.ok "Root cause: bearing wear.",
    timestamp := "2026-01-01T00:00:00" }

/-- `envAllOk` with the operator retrieval call raising. -/
def envOpFail : Env :=
  { envAllOk with operatorCall := fun _ => Except.error "operator search failure" }

/-- `envAllOk` with the sensor retrieval call raising. -/
def envSenFail : Env :=
  { envAllOk with sensorCall := fun _ => Except.error "sensor search failure" }

/-- `envAllOk` with the maintenance retrieval call raising. -/
def envMntFail : Env :=
  { envAllOk with maintenanceCall := fun _ => Except.error "maintenance search failure" }

/-- The three specialized agent domains. -/
inductive AgentKind where
  | sensor
  | operator
  | maintenance
deriving DecidableEq, Repr

/-- The oracle of the given specialized agent. -/
def Env.agentCall (env : Env) : AgentKind → String → Except String Payload
  | AgentKind.sensor => env.sensorCall
  | AgentKind.operator => env.operatorCall
  | AgentKind.maintenance => env.maintenanceCall

/-- The routing selector for the given specialized agent. -/
def RoutingDecision.selects (r : RoutingDecision) : AgentKind → Bool
  | AgentKind.sensor => r.sensor_agent
  | AgentKind.operator => r.operator_agent
  | AgentKind.maintenance => r.maintenance_agent

/-- The `name` each agent passes to `AgentResponse` (`sensor_agent.py:22`,
`operator_agent.py:23`, `maintenance_agent.py:22`). -/
def agentDisplayName : AgentKind → String
  | AgentKind.sensor => "Sensor Data Agent"
  | AgentKind.operator => "Operator Agent"
  | AgentKind.maintenance => "Maintenance Agent"

/-- The entry of the `responses` dictionary for the given agent. -/
def AgentResponses.outcome (resps : AgentResponses) : AgentKind → Option AgentResp
  | AgentKind.sensor => resps.sensor_data
  | AgentKind.operator => resps.operator_reports
  | AgentKind.maintenance => resps.maintenance_logs

/-- Each entry of `_invoke_agents` is determined by the routing selector and
the oracle of that agent alone. -/
theorem invokeAgents_outcome (env : Env) (routing : RoutingDecision) (query : String)
    (a : AgentKind) :
    (invokeAgents env routing query).outcome a =
      if routing.selects a then
        some (agentProcessQuery (agentDisplayName a) (env.agentCall a query))
      else none := by
  cases a <;> rfl

/-! ## Claims -/

/-- C3: for every input query text, `Router.route` returns a non-empty
selector set — including when the classification call raises and when it
returns all-negative flags — and the decision on classification failure and
the decision on an all-negative classification result are the same select-all
decision. -/
theorem route_never_empty_and_fail_open (classify : String → Except String String)
    (query : String) :
    (routeQuery classify query).selectsAny = true ∧
    (∀ e, classify query = Except.error e → routeQuery classify query = allAgentsDecision) ∧
    (∀ t, classify query = Except.ok t → parseRouting (strTrim t) = noAgentsDecision →
      routeQuery classify query = allAgentsDecision) := by
  refine ⟨?_, ?_, ?_⟩
  · unfold routeQuery
    cases h : classify query with
    | error e => rfl
    | ok t =>
        by_cases hp : (parseRouting (strTrim t)).selectsAny
        · simp [hp]
        · simp [hp]; rfl
  · intro e he
    simp [routeQuery, he]
  · intro t ht hneg
    simp [routeQuery, ht, hneg, noAgentsDecision, RoutingDecision.selectsAny]

/-- Witness for C3: a raising classification call and an all-negative
classification result both yield the select-all decision, which is non-empty. -/
theorem route_never_empty_and_fail_open_witness :
    (routeQuery (fun _ => Except.error "connection reset") "why").selectsAny = true ∧
    routeQuery (fun _ => Except.error "connection reset") "why" = allAgentsDecision ∧
    routeQuery (fun _ => Except.ok "SENSOR_AGENT: NO\nOPERATOR_AGENT: NO\nMAINTENANCE_AGENT: NO")
        "why" = allAgentsDecision :=
  ⟨(route_never_empty_and_fail_open _ "why").1,
   (route_never_empty_and_fail_open _ "why").2.1 "connection reset" rfl,
   (route_never_empty_and_fail_open _ "why").2.2
     "SENSOR_AGENT: NO\nOPERATOR_AGENT: NO\nMAINTENANCE_AGENT: NO" rfl (by decide)⟩

/-- One submission step folded over a request list: each request is pushed
through the `/ask` endpoint in order. -/
def submitAll (st : Store) (queue : List QueueMsg) (now : Nat)
    (reqs : List (String × String × String)) : Store × List QueueMsg :=
  reqs.foldl (fun acc r =>
    let a := askQuery acc.1 acc.2 now r.1 r.2.1 r.2.2
    (a.1, a.2.1)) (st, queue)

/-- The queue message a request becomes. -/
def msgOf (r : String × String × String) : QueueMsg :=
  { query_id := r.1, query := r.2.1, timestamp := r.2.2 }

/-- Submissions only append: the queue after a batch of `/ask` calls is the
old queue followed by the new messages in submission order. -/
theorem submitAll_queue (st : Store) (queue : List QueueMsg) (now : Nat)
    (reqs : List (String × String × String)) :
    (submitAll st queue now reqs).2 = queue ++ reqs.map msgOf := by
  induction reqs generalizing st queue with
  | nil => simp [submitAll]
  | cons r rs ih =>
      have step : submitAll st queue now (r :: rs) =
          submitAll (askQuery st queue now r.1 r.2.1 r.2.2).1 (queue ++ [msgOf r]) now rs := rfl
      rw [step, ih]
      simp

/-- C7: jobs pushed by the submission API before any pop sit in the queue in
FIFO order; a pop on a non-empty queue removes and returns exactly the head
job; a pop on an empty queue reports no job rather than an error. -/
theorem queue_fifo_single_pop (st : Store) (now : Nat)
    (reqs : List (String × String × String)) (m : QueueMsg) (rest : List QueueMsg) :
    (submitAll st [] now reqs).2 = reqs.map msgOf ∧
    blpopQueue (m :: rest) = some (m, rest) ∧
    blpopQueue [] = none := by
  refine ⟨?_, rfl, rfl⟩
  simpa using submitAll_queue st [] now reqs

/-- The position of a status along the forward-only lifecycle. -/
def statusRank (s : String) : Nat :=
  if s = "queued" then 0 else if s = "processing" then 1 else 2

/-- C4: across the submission write and the worker writes for one job, the
status field only ever moves forward along queued → processing →
{completed, failed}: the first write is `queued`, every written status is one
of the four, consecutive writes strictly increase in rank (so no transition
repeats and none goes backward), and the last write is terminal. -/
theorem status_writes_forward_only (env : Env) (ok : Bool) (st : Store)
    (queue : List QueueMsg) (now0 now1 : Nat) (query_id query ts : String) :
    ((combinedWrites env ok st queue now0 now1 query_id query ts).map
        (fun r => r.status)).head? = some "queued" ∧
    (∀ s ∈ (combinedWrites env ok st queue now0 now1 query_id query ts).map
        (fun r => r.status),
      s = "queued" ∨ s = "processing" ∨ s = "completed" ∨ s = "failed") ∧
    List.Chain' (fun a b => statusRank a < statusRank b)
      ((combinedWrites env ok st queue now0 now1 query_id query ts).map
        (fun r => r.status)) ∧
    (((combinedWrites env ok st queue now0 now1 query_id query ts).map
        (fun r => r.status)).getLast? = some "completed" ∨
     ((combinedWrites env ok st queue now0 now1 query_id query ts).map
        (fun r => r.status)).getLast? = some "failed") := by
  rw [combinedWrites_eq]
  by_cases h : ok ∧ now1 < now0 + RESULT_TTL
  · simp [h, initialRecord, jobTerminalRecord, statusRank]
  · simp [h, initialRecord, jobTerminalRecord, statusRank]

/-- C5: every record written by the submission API or the worker carries at
most one of {report, error}; a `failed` record always carries a non-empty
error text and a null report. -/
theorem report_error_mutually_exclusive (env : Env) (ok : Bool) (st : Store)
    (queue : List QueueMsg) (now0 now1 : Nat) (query_id query ts : String)
    (r : ResultRecord)
    (hr : r ∈ combinedWrites env ok st queue now0 now1 query_id query ts) :
    ¬(r.rca_report ≠ none ∧ r.error ≠ none) ∧
    (r.status = "failed" → r.rca_report = none ∧ ∃ m, r.error = some m ∧ m ≠ "") := by
  rw [combinedWrites_eq] at hr
  by_cases h : ok ∧ now1 < now0 + RESULT_TTL
  · simp [h] at hr
    rcases hr with hr | hr | hr <;>
      subst hr <;>
      simp [initialRecord, jobTerminalRecord, rcaKwargsTypeErrorMsg]
  · simp [h] at hr
    rcases hr with hr | hr <;>
      subst hr <;>
      simp [initialRecord, jobTerminalRecord, rcaKwargsTypeErrorMsg]

/-- Witness for C5: the terminal record of a concrete run is `failed`, and
indeed carries a non-empty error and no report. -/
theorem report_error_mutually_exclusive_witness :
    ¬((jobTerminalRecord envAllOk "why").rca_report ≠ none ∧
      (jobTerminalRecord envAllOk "why").error ≠ none) ∧
    ((jobTerminalRecord envAllOk "why").status = "failed" →
      (jobTerminalRecord envAllOk "why").rca_report = none ∧
      ∃ m, (jobTerminalRecord envAllOk "why").error = some m ∧ m ≠ "") :=
  report_error_mutually_exclusive envAllOk true emptyStore [] 0 0 "id-1" "why" "ts"
    (jobTerminalRecord envAllOk "why") (by rw [combinedWrites_eq]; simp)

/-- C1 (failing evidence): in an environment where the routing call selects
all three agents and all three specialized agents succeed, the terminal
record is nonetheless `failed` with no report: the call at
`master_agent.py:269` raises `TypeError` because its keyword arguments do not
match the signature at `rca_chain.py:64-71`, so no job can complete. -/
theorem all_agents_succeed_job_still_fails :
    ((invokeAgents envAllOk (routeQuery envAllOk.classify "why did MCH_001 overheat")
        "why did MCH_001 overheat").sensor_data.map AgentResp.success = some true) ∧
    ((invokeAgents envAllOk (routeQuery envAllOk.classify "why did MCH_001 overheat")
        "why did MCH_001 overheat").operator_reports.map AgentResp.success = some true) ∧
    ((invokeAgents envAllOk (routeQuery envAllOk.classify "why did MCH_001 overheat")
        "why did MCH_001 overheat").maintenance_logs.map AgentResp.success = some true) ∧
    (workerProcessQuery envAllOk true emptyStore 0 "id-1"
        "why did MCH_001 overheat").2.1.status = "failed" ∧
    (workerProcessQuery envAllOk true emptyStore 0 "id-1"
        "why did MCH_001 overheat").2.1.rca_report = none := by
  refine ⟨?_, ?_, ?_, rfl, rfl⟩ <;> decide

/-- C2: whenever the AGGREGATING (RCA-report generation) step raises, the
terminal record is `failed` with a null report and an error equal to — hence
containing — the raised exception text. -/
theorem synthesis_raise_yields_failed_record (env : Env) (ok : Bool) (st : Store)
    (now : Nat) (query_id query e : String)
    (h : generateRcaReportStep env query
        (invokeAgents env (routeQuery env.classify query) query) = Except.error e) :
    (workerProcessQuery env ok st now query_id query).2.1.status = "failed" ∧
    (workerProcessQuery env ok st now query_id query).2.1.rca_report = none ∧
    (workerProcessQuery env ok st now query_id query).2.1.error = some e := by
  have he : e = rcaKwargsTypeErrorMsg := by
    simpa [generateRcaReportStep] using h.symm
  subst he
  exact ⟨rfl, rfl, rfl⟩

/-- Witness for C2 at a concrete run: the aggregating step raises the
`TypeError` text and the terminal record carries exactly it. -/
theorem synthesis_raise_yields_failed_record_witness :
    (workerProcessQuery envAllOk true emptyStore 0 "id-1" "why").2.1.status = "failed" ∧
    (workerProcessQuery envAllOk true emptyStore 0 "id-1" "why").2.1.rca_report = none ∧
    (workerProcessQuery envAllOk true emptyStore 0 "id-1" "why").2.1.error =
      some rcaKwargsTypeErrorMsg :=
  synthesis_raise_yields_failed_record envAllOk true emptyStore 0 "id-1" "why"
    rcaKwargsTypeErrorMsg rfl

/-- C6: for every job and every selected specialized agent (sensor, operator
or maintenance) whose retrieval/summarization call raises, the failure is
caught at the boundary of that agent and becomes an outcome with
`success = false` carrying the error text; the outcomes of every other agent
are unchanged (they do not depend on the failing call: any environment
agreeing on the classification oracle and on the oracles of the other agents
collects the same outcomes for them); and the job still reaches a terminal
status. -/
theorem agent_failure_contained (a : AgentKind) (env env2 : Env) (query e : String)
    (ok : Bool) (st : Store) (now : Nat) (query_id : String)
    (hfail : env.agentCall a query = Except.error e)
    (hcls : env2.classify = env.classify)
    (hothers : ∀ b : AgentKind, b ≠ a → env2.agentCall b query = env.agentCall b query) :
    ((routeQuery env.classify query).selects a = true →
      (invokeAgents env (routeQuery env.classify query) query).outcome a =
        some { agent_name := agentDisplayName a, success := false,
               data := none, error := some e }) ∧
    (∀ b : AgentKind, b ≠ a →
      (invokeAgents env (routeQuery env.classify query) query).outcome b =
        (invokeAgents env2 (routeQuery env2.classify query) query).outcome b) ∧
    ((workerProcessQuery env ok st now query_id query).2.1.status = "completed" ∨
     (workerProcessQuery env ok st now query_id query).2.1.status = "failed") := by
  refine ⟨?_, ?_, Or.inr rfl⟩
  · intro hsel
    rw [invokeAgents_outcome, hfail]
    simp [hsel, agentProcessQuery]
  · intro b hb
    rw [invokeAgents_outcome, invokeAgents_outcome, hcls, hothers b hb]

/-- Witness for C6: three concrete runs, one per specialized agent, in each of
which exactly that agent raises; the failing outcome carries the error, the
other two outcomes match those of the all-success environment, and the job is
terminal. -/
theorem agent_failure_contained_witness :
    (((routeQuery envSenFail.classify "why").selects AgentKind.sensor = true →
      (invokeAgents envSenFail (routeQuery envSenFail.classify "why") "why").outcome
          AgentKind.sensor =
        some { agent_name := agentDisplayName AgentKind.sensor, success := false,
               data := none, error := some "sensor search failure" }) ∧
     (∀ b : AgentKind, b ≠ AgentKind.sensor →
       (invokeAgents envSenFail (routeQuery envSenFail.classify "why") "why").outcome b =
         (invokeAgents envAllOk (routeQuery envAllOk.classify "why") "why").outcome b) ∧
     ((workerProcessQuery envSenFail true emptyStore 0 "id-1" "why").2.1.status =
        "completed" ∨
      (workerProcessQuery envSenFail true emptyStore 0 "id-1" "why").2.1.status =
        "failed")) ∧
    (((routeQuery envOpFail.classify "why").selects AgentKind.operator = true →
      (invokeAgents envOpFail (routeQuery envOpFail.classify "why") "why").outcome
          AgentKind.operator =
        some { agent_name := agentDisplayName AgentKind.operator, success := false,
               data := none, error := some "operator search failure" }) ∧
     (∀ b : AgentKind, b ≠ AgentKind.operator →
       (invokeAgents envOpFail (routeQuery envOpFail.classify "why") "why").outcome b =
         (invokeAgents envAllOk (routeQuery envAllOk.classify "why") "why").outcome b) ∧
     ((workerProcessQuery envOpFail true emptyStore 0 "id-1" "why").2.1.status =
        "completed" ∨
      (workerProcessQuery envOpFail true emptyStore 0 "id-1" "why").2.1.status =
        "failed")) ∧
    (((routeQuery envMntFail.classify "why").selects AgentKind.maintenance = true →
      (invokeAgents envMntFail (routeQuery envMntFail.classify "why") "why").outcome
          AgentKind.maintenance =
        some { agent_name := agentDisplayName AgentKind.maintenance, success := false,
               data := none, error := some "maintenance search failure" }) ∧
     (∀ b : AgentKind, b ≠ AgentKind.maintenance →
       (invokeAgents envMntFail (routeQuery envMntFail.classify "why") "why").outcome b =
         (invokeAgents envAllOk (routeQuery envAllOk.classify "why") "why").outcome b) ∧
     ((workerProcessQuery envMntFail true emptyStore 0 "id-1" "why").2.1.status =
        "completed" ∨
      (workerProcessQuery envMntFail true emptyStore 0 "id-1" "why").2.1.status =
        "failed")) :=
  ⟨agent_failure_contained AgentKind.sensor envSenFail envAllOk "why"
      "sensor search failure" true emptyStore 0 "id-1" rfl rfl
      (by intro b hb; cases b with
          | sensor => exact absurd rfl hb
          | operator => rfl
          | maintenance => rfl),
   agent_failure_contained AgentKind.operator envOpFail envAllOk "why"
      "operator search failure" true emptyStore 0 "id-1" rfl rfl
      (by intro b hb; cases b with
          | sensor => rfl
          | operator => exact absurd rfl hb
          | maintenance => rfl),
   agent_failure_contained AgentKind.maintenance envMntFail envAllOk "why"
      "maintenance search failure" true emptyStore 0 "id-1" rfl rfl
      (by intro b hb; cases b with
          | sensor => rfl
          | operator => rfl
          | maintenance => exact absurd rfl hb)⟩

/-- C8: `put`/`get` round-trip and TTL semantics of the result store, and
the fact that every write — the initial queued write, the processing update,
and the terminal write — attaches a fresh TTL equal to the configured
retention window `RESULT_TTL = 3600`. -/
theorem store_roundtrip_ttl (st : Store) (now ttl t : Nat) (key : String)
    (v : ResultRecord) (st2 : Store) (queue : List QueueMsg) (now0 now1 : Nat)
    (query_id query ts : String) (env : Env) (ok : Bool) :
    (t < now + ttl → getKey (setex st now key ttl v) t key = some v) ∧
    (now + ttl ≤ t → getKey (setex st now key ttl v) t key = none) ∧
    RESULT_TTL = 3600 ∧
    (askQuery st2 queue now0 query_id query ts).1 (resultKey query_id) =
      some (initialRecord query, now0 + RESULT_TTL) ∧
    (∀ d, getKey st2 now1 (resultKey query_id) = some d →
      (updateQueryStatusCore st2 now1 query_id "processing").1 (resultKey query_id) =
        some ({ d with status := "processing" }, now1 + RESULT_TTL)) ∧
    (workerProcessQuery env ok st2 now1 query_id query).1 (resultKey query_id) =
      some ((workerProcessQuery env ok st2 now1 query_id query).2.1,
        now1 + RESULT_TTL) := by
  refine ⟨?_, ?_, rfl, ?_, ?_, ?_⟩
  · intro h; rw [getKey_setex_same]; simp [h]
  · intro h; rw [getKey_setex_same]; simp [Nat.not_lt.mpr h]
  · simp [askQuery, setex]
  · intro d hd
    simp [updateQueryStatusCore, hd, setex]
  · simp [workerProcessQuery, setex]

/-- Witness for C8: a concrete record written at time 0 with a 5-second TTL is
readable at time 3 and gone at time 7; the processing update on a concrete
freshly queued record re-attaches `RESULT_TTL`. -/
theorem store_roundtrip_ttl_witness :
    getKey (setex emptyStore 0 "k" 5 (initialRecord "why")) 3 "k" =
      some (initialRecord "why") ∧
    getKey (setex emptyStore 0 "k" 5 (initialRecord "why")) 7 "k" = none ∧
    (updateQueryStatusCore (askQuery emptyStore [] 0 "id-1" "why" "ts").1 1 "id-1"
        "processing").1 (resultKey "id-1") =
      some ({ initialRecord "why" with status := "processing" }, 1 + RESULT_TTL) :=
  ⟨(store_roundtrip_ttl emptyStore 0 5 3 "k" (initialRecord "why") emptyStore [] 0 0
      "id-1" "why" "ts" envAllOk true).1 (by decide),
   (store_roundtrip_ttl emptyStore 0 5 7 "k" (initialRecord "why") emptyStore [] 0 0
      "id-1" "why" "ts" envAllOk true).2.1 (by decide),
   (store_roundtrip_ttl emptyStore 0 5 3 "k" (initialRecord "why")
      (askQuery emptyStore [] 0 "id-1" "why" "ts").1 [] 0 1 "id-1" "why" "ts" envAllOk
      true).2.2.2.2.1 (initialRecord "why") (by decide)⟩

/-- C9: the queued→processing update is best-effort and frame-preserving:
if the record is missing or expired the update is a no-op (nothing written,
store unchanged); if the record exists, the written record changes only the
status field, keeping query, report, error and timestamp; and the
terminal record of the worker does not depend on the store, the time, or whether the
update succeeded, so a failing update never fails the job. -/
theorem update_status_best_effort_frame (st : Store) (now : Nat)
    (query_id status : String) (d : ResultRecord) (env : Env) (ok ok2 : Bool)
    (st2 st3 : Store) (now2 now3 : Nat) (query_id2 query : String) :
    (getKey st now (resultKey query_id) = none →
      updateQueryStatus true st now query_id status = (st, [])) ∧
    (getKey st now (resultKey query_id) = some d →
      (updateQueryStatusCore st now query_id status).1 (resultKey query_id) =
        some ({ query := d.query, status := status, rca_report := d.rca_report,
                error := d.error, timestamp := d.timestamp }, now + RESULT_TTL)) ∧
    (workerProcessQuery env ok st2 now2 query_id2 query).2.1 =
      (workerProcessQuery env ok2 st3 now3 query_id2 query).2.1 := by
  refine ⟨?_, ?_, rfl⟩
  · intro h
    simp [updateQueryStatus, updateQueryStatusCore, h]
  · intro h
    simp [updateQueryStatusCore, h, setex]

/-- Witness for C9: on an empty store the update is a no-op; on a store
holding a concrete queued record, the update rewrites only the status. -/
theorem update_status_best_effort_frame_witness :
    updateQueryStatus true emptyStore 0 "id-1" "processing" = (emptyStore, []) ∧
    (updateQueryStatusCore (askQuery emptyStore [] 0 "id-1" "why" "ts").1 1 "id-1"
        "processing").1 (resultKey "id-1") =
      some ({ query := "why", status := "processing", rca_report := none,
              error := none, timestamp := none }, 1 + RESULT_TTL) ∧
    (workerProcessQuery envAllOk true emptyStore 0 "id-1" "why").2.1 =
      (workerProcessQuery envAllOk false (askQuery emptyStore [] 0 "id-1" "why" "ts").1
        5 "id-1" "why").2.1 :=
  ⟨(update_status_best_effort_frame emptyStore 0 "id-1" "processing" (initialRecord "why")
      envAllOk true false emptyStore emptyStore 0 0 "id-1" "why").1 rfl,
   (update_status_best_effort_frame ((askQuery emptyStore [] 0 "id-1" "why" "ts").1) 1
      "id-1" "processing" (initialRecord "why") envAllOk true false emptyStore emptyStore
      0 0 "id-1" "why").2.1 (by decide),
   (update_status_best_effort_frame emptyStore 0 "id-1" "processing" (initialRecord "why")
      envAllOk true false emptyStore ((askQuery emptyStore [] 0 "id-1" "why" "ts").1)
      0 5 "id-1" "why").2.2⟩

/-- Every element of a score-descending insertion is the inserted element or
one of the originals. -/
theorem mem_insertScoreDesc {α : Type} {x y : α × Nat} {l : List (α × Nat)}
    (h : y ∈ insertScoreDesc x l) : y = x ∨ y ∈ l := by
  induction l with
  | nil => simpa [insertScoreDesc] using h
  | cons z zs ih =>
      unfold insertScoreDesc at h
      by_cases hc : z.2 < x.2
      · simp only [if_pos hc, List.mem_cons] at h
        rcases h with h | h | h
        · exact Or.inl h
        · exact Or.inr (by simp [h])
        · exact Or.inr (by simp [h])
      · simp only [if_neg hc, List.mem_cons] at h
        rcases h with h | h
        · exact Or.inr (by simp [h])
        · rcases ih h with h | h
          · exact Or.inl h
          · exact Or.inr (by simp [h])

/-- The score-descending sort permutes its input, in particular preserves
membership. -/
theorem mem_sortScoreDesc {α : Type} {y : α × Nat} {l : List (α × Nat)}
    (h : y ∈ sortScoreDesc l) : y ∈ l := by
  induction l with
  | nil => simp [sortScoreDesc] at h
  | cons z zs ih =>
      unfold sortScoreDesc at h
      rcases mem_insertScoreDesc h with h | h
      · simp [h]
      · exact List.mem_cons_of_mem z (ih h)

/-- C10: for every query and positive `top_k`, the local-data fallback search
of the operator and maintenance agents returns at most `top_k` documents,
every returned document carries a strictly positive relevance score, and an
empty local dataset yields an empty result. -/
theorem local_search_topk_positive (odata : List OperatorReport)
    (mdata : List MaintenanceLog) (query : String) (top_k : Nat)
    (_hk : 0 < top_k) :
    (operatorSearchLocal odata query top_k).length ≤ top_k ∧
    (∀ x ∈ operatorSearchLocal odata query top_k, 0 < x.2) ∧
    operatorSearchLocal [] query top_k = [] ∧
    (maintenanceSearchLocal mdata query top_k).length ≤ top_k ∧
    (∀ x ∈ maintenanceSearchLocal mdata query top_k, 0 < x.2) ∧
    maintenanceSearchLocal [] query top_k = [] := by
  refine ⟨?_, ?_, rfl, ?_, ?_, rfl⟩
  · cases odata with
    | nil => simp [operatorSearchLocal]
    | cons r rs =>
        calc (operatorSearchLocal (r :: rs) query top_k).length
            ≤ ((sortScoreDesc ((r :: rs).map
                (fun x => (x, operatorRelevance (strLower query) x)))).take top_k).length := by
              simp only [operatorSearchLocal]
              exact List.length_filter_le _ _
          _ ≤ top_k := List.length_take_le _ _
  · intro x hx
    cases odata with
    | nil => simp [operatorSearchLocal] at hx
    | cons r rs =>
        simp only [operatorSearchLocal, List.mem_filter] at hx
        simpa using hx.2
  · cases mdata with
    | nil => simp [maintenanceSearchLocal]
    | cons r rs => exact List.length_take_le _ _
  · intro x hx
    cases mdata with
    | nil => simp [maintenanceSearchLocal] at hx
    | cons r rs =>
        have hmem := mem_sortScoreDesc (List.mem_of_mem_take hx)
        rw [List.mem_filterMap] at hmem
        obtain ⟨log, _, hlog⟩ := hmem
        by_cases hs : 0 < maintenanceScore (strLower query) log
        · simp only [if_pos hs, Option.some.injEq] at hlog
          rw [← hlog]
          exact hs
        · simp [hs] at hlog

/-- A sample operator-report row. -/
def opSample : OperatorReport :=
  { report_id := "r1", machine_id := "MCH_003", operator_name := "Ann",
    shift := "Night", date := "2025-01-01",
    incident_description := "vibration alert critical",
    initial_action := "stopped machine", severity := "Critical", status := "Open" }

/-- A sample maintenance-log entry. -/
def mSample : MaintenanceLog :=
  { log_id := "l1", machine_id := "MCH_003", date := "2025-01-02",
    maintenance_type := "Emergency", components_checked := ["bearing"],
    actions_taken := "replaced bearing", technician := "Tech", downtime_hours := 7,
    remarks := "worn" }

/-- Witness for C10 at a concrete query, datasets and `top_k = 1`. -/
theorem local_search_topk_positive_witness :
    (operatorSearchLocal [opSample] "vibration bearing" 1).length ≤ 1 ∧
    (∀ x ∈ operatorSearchLocal [opSample] "vibration bearing" 1, 0 < x.2) ∧
    operatorSearchLocal [] "vibration bearing" 1 = [] ∧
    (maintenanceSearchLocal [mSample] "vibration bearing" 1).length ≤ 1 ∧
    (∀ x ∈ maintenanceSearchLocal [mSample] "vibration bearing" 1, 0 < x.2) ∧
    maintenanceSearchLocal [] "vibration bearing" 1 = [] :=
  local_search_topk_positive [opSample] [mSample] "vibration bearing" 1 (by decide)

end RCACopilot
